import Mathlib

/-!
# DartBoy Windows launcher (`windows/flutter_embedder.cpp`)

A shallow embedding of the launcher: `GetExecutableDirectory` and `main`.

* `std::string` is `String`, a `char` is a `Char`; every operation goes through the
  character list `String.data`.
* `std::cerr` is a list of stream insertions (`StreamOp`), in program order.
* The operating system and the Flutter window controller are external: their answers are
  the fields of `Env`, and the calls `main` makes to the controller are recorded, in order,
  in the trace of its result.
-/

namespace DartBoy

/-! ## Platform constants and library functions -/

/-- Modelled from the spec: the size of the bounded buffer handed to the OS query
(section 4.1). The macro `MAX_PATH` comes from `windows.h`, which is not part of the
repository; the Windows SDK defines it as 260. -/
def MAX_PATH : Nat := 260

/-- Modelled from the spec: the zero exit status of section 6 ("0 on normal termination").
The macro `EXIT_SUCCESS` comes from the C standard library. -/
def EXIT_SUCCESS : Int := 0

/-- Modelled from the spec: the non-zero platform failure constant of section 6.
The macro `EXIT_FAILURE` comes from the C standard library; its value on Windows is 1. -/
def EXIT_FAILURE : Int := 1

/-- The path separator character the launcher looks for: the backslash, code 92. -/
def separator : Char := '\\'

/-- The constructor `std::string(const char*)`: the characters of the buffer up to, and
excluding, the first NUL. (For a buffer holding no NUL the C++ code reads past the array;
the embedding then takes the whole buffer.) -/
def c_str (buffer : List Char) : String :=
  ⟨buffer.takeWhile (fun c => c != Char.ofNat 0)⟩

/-- The list form of `std::string::find_last_of(char)`: the greatest index holding `c`,
`none` standing for `std::string::npos`. -/
def find_last_of_list (c : Char) : List Char → Option Nat
  | [] => none
  | x :: xs =>
    match find_last_of_list c xs with
    | some i => some (i + 1)
    | none => if x = c then some 0 else none

/-- The call `s.find_last_of(c)`. -/
def find_last_of (s : String) (c : Char) : Option Nat :=
  find_last_of_list c s.data

/-- The call `s.substr(pos, count)` for `pos ≤ s.size()`, the only way the launcher calls it
(`pos` is the literal 0): the characters from `pos` on, at most `count` of them. -/
def substr (s : String) (pos count : Nat) : String :=
  ⟨(s.data.drop pos).take count⟩

/-- The call `s.empty()`. -/
def empty (s : String) : Bool :=
  s.data.isEmpty

/-! ## Observable effects -/

/-- One insertion into `std::cerr`: a piece of text, or `std::endl`. -/
inductive StreamOp where
  | put (text : String)
  | endl
  deriving DecidableEq, Repr

/-- The characters an insertion writes; `std::endl` writes a line feed. -/
def StreamOp.render : StreamOp → String
  | .put text => text
  | .endl => "\n"

/-- The text a sequence of insertions leaves on the stream. -/
def render (ops : List StreamOp) : String :=
  ops.foldl (fun acc op => acc ++ op.render) ""

/-- The number of lines a sequence of insertions terminates: its `std::endl` insertions. -/
def lineCount (ops : List StreamOp) : Nat :=
  ops.count StreamOp.endl

/-- What the platform call `GetModuleFileName(nullptr, buffer, MAX_PATH)` leaves behind:
its return value and the contents of `buffer`. -/
structure OsQuery where
  ret : Nat
  buffer : List Char
  deriving DecidableEq, Repr

/-- An effect of `main` that the outside world observes. -/
inductive Event where
  | cerr (op : StreamOp)
  | FlutterWindowController (icu_data_path : String)
  | CreateWindow (width height : Int) (title assets_path : String)
      (arguments : List String) (result : Bool)
  | RunEventLoop
  deriving DecidableEq, Repr

/-- Everything `main` depends on and does not compute itself. -/
structure Env where
  /-- The OS query, as a function of the buffer size it is given. -/
  GetModuleFileName : Nat → OsQuery
  /-- Whether the build defines `_DEBUG`. -/
  DEBUG : Bool
  /-- The answer of `flutter_controller.CreateWindow`, for a controller constructed with
  the ICU path given first. -/
  CreateWindow : String → Int → Int → String → String → List String → Bool
  /-- Whether the blocking call `RunEventLoop()` ever returns. -/
  RunEventLoopReturns : Bool

/-- The result of running `main`: the effects in program order, and the exit status when
`main` returns (`none` when the event loop never hands control back). -/
structure MainResult where
  trace : List Event
  status : Option Int
  deriving DecidableEq, Repr

/-! ## The launcher -/

/-- The function `GetExecutableDirectory` (lines 12-30): the returned string, and what it
wrote to `std::cerr`. -/
def GetExecutableDirectory (GetModuleFileName : Nat → OsQuery) : String × List StreamOp :=
  let q := GetModuleFileName MAX_PATH
  if q.ret = 0 then
    ("", [StreamOp.put "Couldn't locate executable", StreamOp.endl])
  else
    let executable_path := c_str q.buffer
    match find_last_of executable_path separator with
    | none =>
      ("", [StreamOp.put "Unabled to find parent directory of ",
            StreamOp.put executable_path, StreamOp.endl])
    | some last_separator_position =>
      (substr executable_path 0 last_separator_position, [])

/-- Lines 35-40 of `main`: the value of `base_directory` once the fallback has run. -/
def base_directory (env : Env) : String :=
  let base_directory := (GetExecutableDirectory env.GetModuleFileName).1
  if empty base_directory then "." else base_directory

/-- The three paths `main` derives from the base directory. -/
structure Paths where
  data_directory : String
  assets_path : String
  icu_data_path : String
  deriving DecidableEq, Repr

/-- Lines 42-44 of `main`: the path assembly. -/
def assemble_paths (base_directory : String) : Paths :=
  let data_directory := base_directory ++ "\\data"
  let assets_path := data_directory ++ "\\flutter_assets"
  let icu_data_path := data_directory ++ "\\icudtl.dat"
  { data_directory := data_directory, assets_path := assets_path,
    icu_data_path := icu_data_path }

/-- Lines 47-50 of `main`: the engine arguments; the `push_back` is compiled in only when
`_DEBUG` is not defined. -/
def build_arguments (DEBUG : Bool) : List String :=
  let arguments : List String := []
  if DEBUG then arguments else arguments ++ ["--disable-dart-asserts"]

/-- The function `main` (lines 33-60). -/
def main (env : Env) (argc : Int) (argv : List String) : MainResult :=
  let resolved := GetExecutableDirectory env.GetModuleFileName
  let base_directory := if empty resolved.1 then "." else resolved.1
  let paths := assemble_paths base_directory
  let arguments := build_arguments env.DEBUG
  let created :=
    env.CreateWindow paths.icu_data_path 800 600 "DartBoy" paths.assets_path arguments
  let trace := resolved.2.map Event.cerr ++
    [Event.FlutterWindowController paths.icu_data_path,
     Event.CreateWindow 800 600 "DartBoy" paths.assets_path arguments created]
  if !created then
    { trace := trace, status := some EXIT_FAILURE }
  else if env.RunEventLoopReturns then
    { trace := trace ++ [Event.RunEventLoop], status := some EXIT_SUCCESS }
  else
    { trace := trace ++ [Event.RunEventLoop], status := none }

/-! ## Reading a trace -/

/-- The event is a call of `CreateWindow`. -/
def Event.isCreateWindow : Event → Bool
  | .CreateWindow _ _ _ _ _ _ => true
  | _ => false

/-- The calls the trace makes to the controller (construction included), in order. -/
def controllerCalls (trace : List Event) : List Event :=
  trace.filter (fun e => match e with
    | .cerr _ => false
    | _ => true)

/-- The insertions into `std::cerr` a trace holds, in order. -/
def cerrOps : List Event → List StreamOp
  | [] => []
  | .cerr op :: rest => op :: cerrOps rest
  | _ :: rest => cerrOps rest

/-- The value the call of `CreateWindow` hands back to `main`. -/
def window_created (env : Env) : Bool :=
  env.CreateWindow (assemble_paths (base_directory env)).icu_data_path 800 600 "DartBoy"
    (assemble_paths (base_directory env)).assets_path (build_arguments env.DEBUG)

/-! ## Sample environments -/

/-- A release build installed under `C:\Apps\DartBoy`; the window opens and the event loop
comes back. The buffer holds the path, its terminating NUL, and stale bytes after it. -/
def installedEnv : Env where
  GetModuleFileName := fun _ =>
    { ret := 27, buffer := "C:\\Apps\\DartBoy\\dartboy.exe".data ++ Char.ofNat 0 :: "??".data }
  DEBUG := false
  CreateWindow := fun _ _ _ _ _ _ => true
  RunEventLoopReturns := true

/-- The installed release build on a machine where the window cannot be created. -/
def windowFailsEnv : Env where
  GetModuleFileName := installedEnv.GetModuleFileName
  DEBUG := false
  CreateWindow := fun _ _ _ _ _ _ => false
  RunEventLoopReturns := true

/-- The OS reports a bare file name, without any separator. -/
def bareNameEnv : Env where
  GetModuleFileName := fun _ => { ret := 7, buffer := "app.exe".data ++ [Char.ofNat 0] }
  DEBUG := true
  CreateWindow := fun _ _ _ _ _ _ => true
  RunEventLoopReturns := true

/-- The OS query fails; the buffer keeps whatever it held. -/
def failedQueryEnv : Env where
  GetModuleFileName := fun _ => { ret := 0, buffer := "C:\\stale\\bytes".data }
  DEBUG := false
  CreateWindow := fun _ _ _ _ _ _ => true
  RunEventLoopReturns := true

/-- The OS reports a path whose only separator is its first character. -/
def rootedEnv : Env where
  GetModuleFileName := fun _ => { ret := 8, buffer := "\\app.exe".data ++ [Char.ofNat 0] }
  DEBUG := false
  CreateWindow := fun _ _ _ _ _ _ => true
  RunEventLoopReturns := true

/-! ## Library functions: what the embedding of `find_last_of` computes -/

theorem find_last_of_list_eq_none (c : Char) (l : List Char) :
    find_last_of_list c l = none ↔ c ∉ l := by
  induction l with
  | nil => simp [find_last_of_list]
  | cons x xs ih =>
    unfold find_last_of_list
    cases hrec : find_last_of_list c xs with
    | some j =>
      have hmem : c ∈ xs := by
        by_contra hno
        rw [ih.mpr hno] at hrec
        cases hrec
      simp [hmem]
    | none =>
      have hno : c ∉ xs := ih.mp hrec
      by_cases hx : x = c
      · simp [hx]
      · have hx2 : ¬ c = x := fun h => hx h.symm
        simp [hx, hx2, hno]

theorem find_last_of_list_spec (c : Char) (l : List Char) (i : Nat)
    (h : find_last_of_list c l = some i) :
    l = l.take i ++ c :: l.drop (i + 1) ∧ c ∉ l.drop (i + 1) := by
  induction l generalizing i with
  | nil => simp [find_last_of_list] at h
  | cons x xs ih =>
    unfold find_last_of_list at h
    cases hrec : find_last_of_list c xs with
    | some j =>
      rw [hrec] at h
      simp only [Option.some.injEq] at h
      subst h
      obtain ⟨h1, h2⟩ := ih j hrec
      refine ⟨?_, ?_⟩
      · simp only [List.take_succ_cons, List.drop_succ_cons, List.cons_append]
        exact congrArg (List.cons x) h1
      · simpa using h2
    | none =>
      rw [hrec] at h
      have hno : c ∉ xs := (find_last_of_list_eq_none c xs).mp hrec
      by_cases hx : x = c
      · simp only [hx, if_true, Option.some.injEq] at h
        subst h
        subst hx
        simpa using hno
      · simp [hx] at h

theorem find_last_of_list_isSome (c : Char) (l : List Char) (h : c ∈ l) :
    ∃ i, find_last_of_list c l = some i := by
  cases hrec : find_last_of_list c l with
  | some i => exact ⟨i, rfl⟩
  | none => exact absurd h ((find_last_of_list_eq_none c l).mp hrec)

theorem find_last_of_list_append (c : Char) (d t : List Char) (h : c ∉ t) :
    find_last_of_list c (d ++ c :: t) = some d.length := by
  induction d with
  | nil =>
    have hnone : find_last_of_list c t = none := (find_last_of_list_eq_none c t).mpr h
    simp [find_last_of_list, hnone]
  | cons x xs ih =>
    simp [find_last_of_list, ih]

/-! ## Strings -/

theorem empty_iff (s : String) : empty s = true ↔ s = "" := by
  constructor
  · intro h
    apply String.ext
    simpa [empty, List.isEmpty_iff] using h
  · intro h
    subst h
    rfl

theorem separator_string_data : ("\\" : String).data = [separator] := rfl

/-! ## The resolver, case by case -/

theorem GetExecutableDirectory_failed (os : Nat → OsQuery) (hret : (os MAX_PATH).ret = 0) :
    GetExecutableDirectory os =
      ("", [StreamOp.put "Couldn't locate executable", StreamOp.endl]) := by
  simp [GetExecutableDirectory, hret]

theorem GetExecutableDirectory_no_separator (os : Nat → OsQuery)
    (hret : (os MAX_PATH).ret ≠ 0)
    (hsep : separator ∉ (c_str (os MAX_PATH).buffer).data) :
    GetExecutableDirectory os =
      ("", [StreamOp.put "Unabled to find parent directory of ",
            StreamOp.put (c_str (os MAX_PATH).buffer), StreamOp.endl]) := by
  have hnone : find_last_of (c_str (os MAX_PATH).buffer) separator = none :=
    (find_last_of_list_eq_none _ _).mpr hsep
  simp [GetExecutableDirectory, hret, hnone]

theorem GetExecutableDirectory_split (os : Nat → OsQuery) (d t : String)
    (hret : (os MAX_PATH).ret ≠ 0)
    (hpath : c_str (os MAX_PATH).buffer = d ++ "\\" ++ t)
    (ht : separator ∉ t.data) :
    GetExecutableDirectory os = (d, []) := by
  have hdata : (c_str (os MAX_PATH).buffer).data = d.data ++ separator :: t.data := by
    rw [hpath]
    simp only [String.data_append, List.append_assoc]
    rfl
  have hsome : find_last_of (c_str (os MAX_PATH).buffer) separator = some d.data.length := by
    unfold find_last_of
    rw [hdata]
    exact find_last_of_list_append separator d.data t.data ht
  have hsub : substr (c_str (os MAX_PATH).buffer) 0 d.data.length = d := by
    apply String.ext
    simp [substr, hdata]
  simp only [GetExecutableDirectory, hret, if_false, hsome, hsub]

theorem GetExecutableDirectory_separator (os : Nat → OsQuery)
    (hret : (os MAX_PATH).ret ≠ 0)
    (hsep : separator ∈ (c_str (os MAX_PATH).buffer).data) :
    ∃ d t : String, c_str (os MAX_PATH).buffer = d ++ "\\" ++ t ∧ separator ∉ t.data ∧
      GetExecutableDirectory os = (d, []) := by
  obtain ⟨i, hi⟩ := find_last_of_list_isSome separator _ hsep
  obtain ⟨h1, h2⟩ := find_last_of_list_spec separator _ i hi
  refine ⟨⟨(c_str (os MAX_PATH).buffer).data.take i⟩,
    ⟨(c_str (os MAX_PATH).buffer).data.drop (i + 1)⟩, ?_, h2, ?_⟩
  · apply String.ext
    simp only [String.data_append, separator_string_data]
    simpa using h1
  · apply GetExecutableDirectory_split os _ _ hret _ h2
    apply String.ext
    simp only [String.data_append, separator_string_data]
    simpa using h1

/-! ## The shape of a run of `main` -/

theorem main_eq (env : Env) (argc : Int) (argv : List String) :
    main env argc argv =
      { trace := (GetExecutableDirectory env.GetModuleFileName).2.map Event.cerr ++
          [Event.FlutterWindowController (assemble_paths (base_directory env)).icu_data_path,
           Event.CreateWindow 800 600 "DartBoy"
             (assemble_paths (base_directory env)).assets_path
             (build_arguments env.DEBUG) (window_created env)] ++
          (if window_created env then [Event.RunEventLoop] else []),
        status :=
          if window_created env then
            (if env.RunEventLoopReturns then some EXIT_SUCCESS else none)
          else some EXIT_FAILURE } := by
  unfold main window_created base_directory
  simp only []
  split_ifs <;> simp_all

theorem createWindow_mem_trace (env : Env) (argc : Int) (argv : List String)
    (w h : Int) (t a : String) (args : List String) (r : Bool) :
    Event.CreateWindow w h t a args r ∈ (main env argc argv).trace ↔
      w = 800 ∧ h = 600 ∧ t = "DartBoy" ∧
      a = (assemble_paths (base_directory env)).assets_path ∧
      args = build_arguments env.DEBUG ∧ r = window_created env := by
  rw [main_eq]
  cases hc : window_created env <;> simp

theorem runEventLoop_mem_trace (env : Env) (argc : Int) (argv : List String) :
    Event.RunEventLoop ∈ (main env argc argv).trace ↔ window_created env = true := by
  rw [main_eq]
  cases hc : window_created env <;> simp

theorem filter_isCreateWindow_cerr (ops : List StreamOp) :
    (ops.map Event.cerr).filter Event.isCreateWindow = [] := by
  induction ops with
  | nil => rfl
  | cons op rest ih => simp [List.filter, Event.isCreateWindow]

theorem controllerCalls_cerr (ops : List StreamOp) :
    controllerCalls (ops.map Event.cerr) = [] := by
  induction ops with
  | nil => rfl
  | cons op rest ih => simp [controllerCalls, List.filter]

theorem count_runEventLoop_cerr (ops : List StreamOp) :
    (ops.map Event.cerr).count Event.RunEventLoop = 0 := by
  induction ops with
  | nil => rfl
  | cons op rest ih => simp [List.count_cons, ih]

theorem createWindow_calls (env : Env) (argc : Int) (argv : List String) :
    (main env argc argv).trace.filter Event.isCreateWindow =
      [Event.CreateWindow 800 600 "DartBoy"
        (assemble_paths (base_directory env)).assets_path
        (build_arguments env.DEBUG) (window_created env)] := by
  rw [main_eq]
  cases hc : window_created env <;>
    simp [List.filter_append, filter_isCreateWindow_cerr, List.filter, Event.isCreateWindow]

theorem controllerCalls_main (env : Env) (argc : Int) (argv : List String) :
    controllerCalls (main env argc argv).trace =
      [Event.FlutterWindowController (assemble_paths (base_directory env)).icu_data_path,
       Event.CreateWindow 800 600 "DartBoy"
         (assemble_paths (base_directory env)).assets_path
         (build_arguments env.DEBUG) (window_created env)] ++
      (if window_created env then [Event.RunEventLoop] else []) := by
  rw [main_eq]
  have hcerr := controllerCalls_cerr (GetExecutableDirectory env.GetModuleFileName).2
  unfold controllerCalls at hcerr ⊢
  cases hc : window_created env <;>
    simp [List.filter_append, hcerr, List.filter]

/-! ## The resolver: `GetExecutableDirectory` -/

/-- C1: when the OS query succeeds and the reported path holds a backslash, the returned
directory `d` is the part of the path before its last backslash: the path is
`d ++ "\\" ++ t` for a trailing component `t` that holds no backslash, so `d` leaves out
that separator and everything after it. -/
theorem C1_directory_precedes_last_separator (os : Nat → OsQuery)
    (hret : (os MAX_PATH).ret ≠ 0)
    (hsep : separator ∈ (c_str (os MAX_PATH).buffer).data) :
    ∃ t : String,
      c_str (os MAX_PATH).buffer = (GetExecutableDirectory os).1 ++ "\\" ++ t ∧
      separator ∉ t.data := by
  obtain ⟨d, t, hpath, ht, hres⟩ := GetExecutableDirectory_separator os hret hsep
  exact ⟨t, by rw [hres]; exact hpath, ht⟩

theorem C1_directory_precedes_last_separator_witness :
    (installedEnv.GetModuleFileName MAX_PATH).ret ≠ 0 ∧
    separator ∈ (c_str (installedEnv.GetModuleFileName MAX_PATH).buffer).data ∧
    (GetExecutableDirectory installedEnv.GetModuleFileName).1 = "C:\\Apps\\DartBoy" ∧
    ∃ t : String,
      c_str (installedEnv.GetModuleFileName MAX_PATH).buffer =
        (GetExecutableDirectory installedEnv.GetModuleFileName).1 ++ "\\" ++ t ∧
      separator ∉ t.data :=
  ⟨by decide, by decide, by decide,
   C1_directory_precedes_last_separator installedEnv.GetModuleFileName
     (by decide) (by decide)⟩

/-- C5: when the OS query succeeds and the reported path holds no backslash, the resolver
returns the empty string and makes exactly one diagnostic, a single line ended by
`std::endl`, whose text is "Unabled to find parent directory of " followed by the path;
the path is therefore part of the text written, and that text holds a single line feed
whenever the path itself holds none. -/
theorem C5_no_separator_diagnostic (os : Nat → OsQuery)
    (hret : (os MAX_PATH).ret ≠ 0)
    (hsep : separator ∉ (c_str (os MAX_PATH).buffer).data) :
    (GetExecutableDirectory os).1 = "" ∧
    (GetExecutableDirectory os).2 =
      [StreamOp.put "Unabled to find parent directory of ",
       StreamOp.put (c_str (os MAX_PATH).buffer), StreamOp.endl] ∧
    lineCount (GetExecutableDirectory os).2 = 1 ∧
    render (GetExecutableDirectory os).2 =
      "Unabled to find parent directory of " ++ c_str (os MAX_PATH).buffer ++ "\n" ∧
    (c_str (os MAX_PATH).buffer).data <:+: (render (GetExecutableDirectory os).2).data ∧
    ('\n' ∉ (c_str (os MAX_PATH).buffer).data →
      (render (GetExecutableDirectory os).2).data.count '\n' = 1) := by
  rw [GetExecutableDirectory_no_separator os hret hsep]
  have hrender : render [StreamOp.put "Unabled to find parent directory of ",
      StreamOp.put (c_str (os MAX_PATH).buffer), StreamOp.endl] =
      "Unabled to find parent directory of " ++ c_str (os MAX_PATH).buffer ++ "\n" := by
    apply String.ext
    simp [render, StreamOp.render, String.data_append]
  refine ⟨rfl, rfl, ?_, hrender, ?_, ?_⟩
  · simp [lineCount, List.count_cons]
  · rw [hrender]
    exact ⟨("Unabled to find parent directory of " : String).data, ("\n" : String).data,
      by simp [String.data_append]⟩
  · intro hlf
    rw [hrender]
    simp only [String.data_append, List.count_append, List.count_eq_zero_of_not_mem hlf]
    decide

theorem C5_no_separator_diagnostic_witness :
    (bareNameEnv.GetModuleFileName MAX_PATH).ret ≠ 0 ∧
    separator ∉ (c_str (bareNameEnv.GetModuleFileName MAX_PATH).buffer).data ∧
    c_str (bareNameEnv.GetModuleFileName MAX_PATH).buffer = "app.exe" ∧
    (GetExecutableDirectory bareNameEnv.GetModuleFileName).1 = "" ∧
    lineCount (GetExecutableDirectory bareNameEnv.GetModuleFileName).2 = 1 ∧
    render (GetExecutableDirectory bareNameEnv.GetModuleFileName).2 =
      "Unabled to find parent directory of app.exe\n" :=
  have h := C5_no_separator_diagnostic bareNameEnv.GetModuleFileName (by decide) (by decide)
  ⟨by decide, by decide, by decide, h.1, h.2.2.1, by decide⟩

/-- C6: when the OS query returns zero, the resolver returns, as an ordinary value, the
empty string together with one diagnostic line, "Couldn't locate executable"; the result
is the same whatever the buffer holds, so the buffer is not looked at. -/
theorem C6_failed_query (os : Nat → OsQuery) (hret : (os MAX_PATH).ret = 0) :
    GetExecutableDirectory os =
      ("", [StreamOp.put "Couldn't locate executable", StreamOp.endl]) ∧
    render (GetExecutableDirectory os).2 = "Couldn't locate executable\n" ∧
    lineCount (GetExecutableDirectory os).2 = 1 ∧
    ∀ buffer : List Char,
      GetExecutableDirectory (fun _ => { ret := 0, buffer := buffer }) =
        GetExecutableDirectory os := by
  rw [GetExecutableDirectory_failed os hret]
  refine ⟨rfl, by decide, by decide, ?_⟩
  intro buffer
  exact GetExecutableDirectory_failed _ rfl

theorem C6_failed_query_witness :
    (failedQueryEnv.GetModuleFileName MAX_PATH).ret = 0 ∧
    GetExecutableDirectory failedQueryEnv.GetModuleFileName =
      ("", [StreamOp.put "Couldn't locate executable", StreamOp.endl]) :=
  ⟨by decide, (C6_failed_query failedQueryEnv.GetModuleFileName (by decide)).1⟩

/-! ## The path assembly and the engine arguments -/

/-- C2: for every base directory `b` the assembly yields `b ++ "\\data"`,
`b ++ "\\data\\flutter_assets"` and `b ++ "\\data\\icudtl.dat"`; each of the three has `b`
as a proper prefix; and the base `C:\Apps\DartBoy` gives `C:\Apps\DartBoy\data`,
`C:\Apps\DartBoy\data\flutter_assets` and `C:\Apps\DartBoy\data\icudtl.dat`. -/
theorem C2_paths_extend_base (b : String) :
    (assemble_paths b).data_directory = b ++ "\\data" ∧
    (assemble_paths b).assets_path = b ++ "\\data\\flutter_assets" ∧
    (assemble_paths b).icu_data_path = b ++ "\\data\\icudtl.dat" ∧
    (b.data <+: (assemble_paths b).data_directory.data ∧
      b.length < (assemble_paths b).data_directory.length) ∧
    (b.data <+: (assemble_paths b).assets_path.data ∧
      b.length < (assemble_paths b).assets_path.length) ∧
    (b.data <+: (assemble_paths b).icu_data_path.data ∧
      b.length < (assemble_paths b).icu_data_path.length) ∧
    assemble_paths "C:\\Apps\\DartBoy" =
      { data_directory := "C:\\Apps\\DartBoy\\data",
        assets_path := "C:\\Apps\\DartBoy\\data\\flutter_assets",
        icu_data_path := "C:\\Apps\\DartBoy\\data\\icudtl.dat" } := by
  have h1 : (assemble_paths b).data_directory = b ++ "\\data" := rfl
  have h2 : (assemble_paths b).assets_path = b ++ "\\data\\flutter_assets" := by
    show b ++ "\\data" ++ "\\flutter_assets" = b ++ "\\data\\flutter_assets"
    rw [String.append_assoc]
    rfl
  have h3 : (assemble_paths b).icu_data_path = b ++ "\\data\\icudtl.dat" := by
    show b ++ "\\data" ++ "\\icudtl.dat" = b ++ "\\data\\icudtl.dat"
    rw [String.append_assoc]
    rfl
  refine ⟨h1, h2, h3, ?_, ?_, ?_, by decide⟩
  · rw [h1]
    exact ⟨⟨_, by rw [String.data_append]⟩, by
      rw [String.length_append]
      exact Nat.lt_add_of_pos_right (by decide)⟩
  · rw [h2]
    exact ⟨⟨_, by rw [String.data_append]⟩, by
      rw [String.length_append]
      exact Nat.lt_add_of_pos_right (by decide)⟩
  · rw [h3]
    exact ⟨⟨_, by rw [String.data_append]⟩, by
      rw [String.length_append]
      exact Nat.lt_add_of_pos_right (by decide)⟩

/-- C9: the arguments `main` hands to `CreateWindow` are a function of the build
configuration alone: the single flag "--disable-dart-asserts" when `_DEBUG` is not defined,
no argument when it is, whatever `argc`, `argv`, the OS query and the controller are. -/
theorem C9_arguments_fixed_by_build (env : Env) (argc : Int) (argv : List String) :
    build_arguments false = ["--disable-dart-asserts"] ∧
    build_arguments true = [] ∧
    ∃ (a : String) (r : Bool),
      (main env argc argv).trace.filter Event.isCreateWindow =
        [Event.CreateWindow 800 600 "DartBoy" a
          (if env.DEBUG then [] else ["--disable-dart-asserts"]) r] := by
  refine ⟨rfl, rfl, (assemble_paths (base_directory env)).assets_path,
    window_created env, ?_⟩
  rw [createWindow_calls]
  cases env.DEBUG <;> rfl

/-! ## The lifecycle: `main` -/

/-- C3: if the call of `CreateWindow` returns false, `main` returns `EXIT_FAILURE`, which
is not zero, `RunEventLoop` is not called, and `CreateWindow` is called exactly once. -/
theorem C3_window_failure_is_fatal (env : Env) (argc : Int) (argv : List String)
    (hfail : ∃ (w h : Int) (t a : String) (args : List String),
      Event.CreateWindow w h t a args false ∈ (main env argc argv).trace) :
    (main env argc argv).status = some EXIT_FAILURE ∧
    EXIT_FAILURE ≠ 0 ∧
    Event.RunEventLoop ∉ (main env argc argv).trace ∧
    ((main env argc argv).trace.filter Event.isCreateWindow).length = 1 := by
  obtain ⟨w, h, t, a, args, hmem⟩ := hfail
  have hc : window_created env = false :=
    ((createWindow_mem_trace env argc argv w h t a args false).mp hmem).2.2.2.2.2.symm
  refine ⟨?_, by decide, ?_, ?_⟩
  · rw [main_eq]
    simp [hc]
  · rw [runEventLoop_mem_trace, hc]
    decide
  · rw [createWindow_calls]
    rfl

theorem C3_window_failure_is_fatal_witness :
    (∃ (w h : Int) (t a : String) (args : List String),
      Event.CreateWindow w h t a args false ∈ (main windowFailsEnv 0 []).trace) ∧
    (main windowFailsEnv 0 []).status = some EXIT_FAILURE ∧
    EXIT_FAILURE ≠ 0 ∧
    Event.RunEventLoop ∉ (main windowFailsEnv 0 []).trace ∧
    ((main windowFailsEnv 0 []).trace.filter Event.isCreateWindow).length = 1 :=
  have hfail : ∃ (w h : Int) (t a : String) (args : List String),
      Event.CreateWindow w h t a args false ∈ (main windowFailsEnv 0 []).trace :=
    ⟨800, 600, "DartBoy", "C:\\Apps\\DartBoy\\data\\flutter_assets",
      ["--disable-dart-asserts"], by decide⟩
  ⟨hfail, C3_window_failure_is_fatal windowFailsEnv 0 [] hfail⟩

/-- C4: if the call of `CreateWindow` returns true and `RunEventLoop` returns, `main`
returns `EXIT_SUCCESS`, which is zero; `RunEventLoop` is called exactly once, as the last
effect, right after the successful `CreateWindow`; and whenever `main` returns, its status
is zero if and only if `CreateWindow` returned true. -/
theorem C4_success_exit (env : Env) (argc : Int) (argv : List String) :
    ((∃ (w h : Int) (t a : String) (args : List String),
        Event.CreateWindow w h t a args true ∈ (main env argc argv).trace) →
      env.RunEventLoopReturns = true →
      (main env argc argv).status = some EXIT_SUCCESS ∧
      EXIT_SUCCESS = 0 ∧
      (main env argc argv).trace.count Event.RunEventLoop = 1 ∧
      ∃ (before : List Event) (a : String) (args : List String),
        (main env argc argv).trace =
          before ++ [Event.CreateWindow 800 600 "DartBoy" a args true, Event.RunEventLoop] ∧
        Event.RunEventLoop ∉ before) ∧
    (∀ status : Int, (main env argc argv).status = some status →
      (status = 0 ↔
        ∃ (w h : Int) (t a : String) (args : List String),
          Event.CreateWindow w h t a args true ∈ (main env argc argv).trace)) := by
  constructor
  · rintro ⟨w, h, t, a, args, hmem⟩ hret
    have hc : window_created env = true :=
      ((createWindow_mem_trace env argc argv w h t a args true).mp hmem).2.2.2.2.2.symm
    refine ⟨?_, rfl, ?_, ?_⟩
    · rw [main_eq]
      simp [hc, hret]
    · rw [main_eq]
      simp [hc, List.count_append, count_runEventLoop_cerr, List.count_cons]
    · refine ⟨(GetExecutableDirectory env.GetModuleFileName).2.map Event.cerr ++
          [Event.FlutterWindowController (assemble_paths (base_directory env)).icu_data_path],
        (assemble_paths (base_directory env)).assets_path, build_arguments env.DEBUG, ?_, ?_⟩
      · rw [main_eq]
        simp [hc]
      · simp
  · intro status hstatus
    have hiff : (∃ (w h : Int) (t a : String) (args : List String),
        Event.CreateWindow w h t a args true ∈ (main env argc argv).trace) ↔
        window_created env = true := by
      constructor
      · rintro ⟨w, h, t, a, args, hmem⟩
        exact ((createWindow_mem_trace env argc argv w h t a args true).mp hmem).2.2.2.2.2.symm
      · intro hc
        exact ⟨800, 600, "DartBoy", _, _,
          (createWindow_mem_trace env argc argv _ _ _ _ _ _).mpr
            ⟨rfl, rfl, rfl, rfl, rfl, hc.symm⟩⟩
    rw [hiff]
    rw [main_eq] at hstatus
    cases hc : window_created env
    · simp only [hc, Bool.false_eq_true, if_false, Option.some.injEq] at hstatus
      subst hstatus
      simp [EXIT_FAILURE]
    · cases hr : env.RunEventLoopReturns
      · simp [hc, hr] at hstatus
      · simp only [hc, hr, if_true, Option.some.injEq] at hstatus
        subst hstatus
        simp [EXIT_SUCCESS]

theorem C4_success_exit_witness :
    (∃ (w h : Int) (t a : String) (args : List String),
      Event.CreateWindow w h t a args true ∈ (main installedEnv 0 []).trace) ∧
    installedEnv.RunEventLoopReturns = true ∧
    (main installedEnv 0 []).status = some 0 ∧
    (main installedEnv 0 []).trace.count Event.RunEventLoop = 1 :=
  have hok : ∃ (w h : Int) (t a : String) (args : List String),
      Event.CreateWindow w h t a args true ∈ (main installedEnv 0 []).trace :=
    ⟨800, 600, "DartBoy", "C:\\Apps\\DartBoy\\data\\flutter_assets",
      ["--disable-dart-asserts"], by decide⟩
  have h := (C4_success_exit installedEnv 0 []).1 hok rfl
  ⟨hok, rfl, h.1, h.2.2.1⟩

/-- C10: in every run, the calls `main` makes to the controller are, in this order: its
construction with `base ++ "\\data\\icudtl.dat"`; `CreateWindow` with 800, 600, "DartBoy",
`base ++ "\\data\\flutter_assets"` and the assembled arguments; and `RunEventLoop` when
`CreateWindow` returned true. Here `base` is the base directory, fallback applied. -/
theorem C10_controller_calls (env : Env) (argc : Int) (argv : List String) :
    controllerCalls (main env argc argv).trace =
      [Event.FlutterWindowController (base_directory env ++ "\\data\\icudtl.dat"),
       Event.CreateWindow 800 600 "DartBoy" (base_directory env ++ "\\data\\flutter_assets")
         (build_arguments env.DEBUG)
         (env.CreateWindow (base_directory env ++ "\\data\\icudtl.dat") 800 600 "DartBoy"
           (base_directory env ++ "\\data\\flutter_assets") (build_arguments env.DEBUG))] ++
      (if env.CreateWindow (base_directory env ++ "\\data\\icudtl.dat") 800 600 "DartBoy"
           (base_directory env ++ "\\data\\flutter_assets") (build_arguments env.DEBUG)
        then [Event.RunEventLoop] else []) := by
  have h2 : (assemble_paths (base_directory env)).assets_path =
      base_directory env ++ "\\data\\flutter_assets" := by
    show base_directory env ++ "\\data" ++ "\\flutter_assets" = _
    rw [String.append_assoc]
    rfl
  have h3 : (assemble_paths (base_directory env)).icu_data_path =
      base_directory env ++ "\\data\\icudtl.dat" := by
    show base_directory env ++ "\\data" ++ "\\icudtl.dat" = _
    rw [String.append_assoc]
    rfl
  rw [controllerCalls_main]
  unfold window_created
  rw [h2, h3]

/-! ## The base directory and its fallback -/

theorem base_directory_of_resolved (env : Env) (d : String) (ops : List StreamOp)
    (h : GetExecutableDirectory env.GetModuleFileName = (d, ops)) :
    base_directory env = if d = "" then "." else d := by
  unfold base_directory
  simp only [h]
  by_cases hd : d = ""
  · simp [hd, (empty_iff "").mpr rfl]
  · have he : empty d = false := by
      cases hempty : empty d with
      | false => rfl
      | true => exact absurd ((empty_iff d).mp hempty) hd
    simp [hd, he]

/-- C7: whenever the resolver returns the empty string, the base directory is ".", the
assembled paths are `.\data`, `.\data\flutter_assets` and `.\data\icudtl.dat`, and `main`
goes on to construct the controller and to call `CreateWindow` with them; and in every
run the base directory handed to the path assembly is not empty. -/
theorem C7_empty_result_falls_back (env : Env) (argc : Int) (argv : List String) :
    ((GetExecutableDirectory env.GetModuleFileName).1 = "" →
      base_directory env = "." ∧
      assemble_paths (base_directory env) =
        { data_directory := ".\\data",
          assets_path := ".\\data\\flutter_assets",
          icu_data_path := ".\\data\\icudtl.dat" } ∧
      Event.FlutterWindowController ".\\data\\icudtl.dat" ∈ (main env argc argv).trace ∧
      ∃ r : Bool,
        Event.CreateWindow 800 600 "DartBoy" ".\\data\\flutter_assets"
          (build_arguments env.DEBUG) r ∈ (main env argc argv).trace) ∧
    base_directory env ≠ "" := by
  have hbase := base_directory_of_resolved env
    (GetExecutableDirectory env.GetModuleFileName).1
    (GetExecutableDirectory env.GetModuleFileName).2 rfl
  constructor
  · intro hempty
    have hdot : base_directory env = "." := by
      rw [hbase, hempty]
      rfl
    have hpaths : assemble_paths (base_directory env) =
        { data_directory := ".\\data",
          assets_path := ".\\data\\flutter_assets",
          icu_data_path := ".\\data\\icudtl.dat" } := by
      rw [hdot]
      decide
    refine ⟨hdot, hpaths, ?_, window_created env, ?_⟩
    · rw [main_eq, hpaths]
      simp
    · rw [createWindow_mem_trace, hpaths]
      exact ⟨rfl, rfl, rfl, rfl, rfl, rfl⟩
  · rw [hbase]
    by_cases hd : (GetExecutableDirectory env.GetModuleFileName).1 = ""
    · rw [if_pos hd]
      decide
    · rw [if_neg hd]
      exact hd

theorem C7_empty_result_falls_back_witness :
    (GetExecutableDirectory failedQueryEnv.GetModuleFileName).1 = "" ∧
    base_directory failedQueryEnv = "." ∧
    Event.FlutterWindowController ".\\data\\icudtl.dat" ∈ (main failedQueryEnv 0 []).trace ∧
    base_directory failedQueryEnv ≠ "" :=
  have h := C7_empty_result_falls_back failedQueryEnv 0 []
  have h1 := h.1 (by decide)
  ⟨by decide, h1.1, h1.2.2.1, h.2⟩

/-- C8, as the claim states it, fails: the OS reports `\app.exe`, a path that holds a
separator and whose part before the final separator is the empty string, and the base
directory `main` uses is "." all the same. -/
theorem C8_counterexample :
    (rootedEnv.GetModuleFileName MAX_PATH).ret ≠ 0 ∧
    c_str (rootedEnv.GetModuleFileName MAX_PATH).buffer = "" ++ "\\" ++ "app.exe" ∧
    c_str (rootedEnv.GetModuleFileName MAX_PATH).buffer ≠ "" ∧
    separator ∈ (c_str (rootedEnv.GetModuleFileName MAX_PATH).buffer).data ∧
    separator ∉ ("app.exe" : String).data ∧
    base_directory rootedEnv = "." ∧
    base_directory rootedEnv ≠ "" := by
  decide

/-- C8, amended: when the OS query succeeds and the path is `d ++ "\\" ++ t` with no
backslash in `t` and `d` not empty, the base directory is `d`; and the base directory is
"." exactly when the query returned zero, or the path holds no backslash, or the part of
the path before its last backslash is empty or is "." itself. -/
theorem C8_base_directory_amended (env : Env) :
    (∀ d t : String, (env.GetModuleFileName MAX_PATH).ret ≠ 0 →
      c_str (env.GetModuleFileName MAX_PATH).buffer = d ++ "\\" ++ t →
      separator ∉ t.data → d ≠ "" → base_directory env = d) ∧
    (base_directory env = "." ↔
      (env.GetModuleFileName MAX_PATH).ret = 0 ∨
      separator ∉ (c_str (env.GetModuleFileName MAX_PATH).buffer).data ∨
      ∃ t : String, separator ∉ t.data ∧
        (c_str (env.GetModuleFileName MAX_PATH).buffer = "" ++ "\\" ++ t ∨
         c_str (env.GetModuleFileName MAX_PATH).buffer = "." ++ "\\" ++ t)) := by
  constructor
  · intro d t hret hpath ht hd
    rw [base_directory_of_resolved env d []
      (GetExecutableDirectory_split env.GetModuleFileName d t hret hpath ht), if_neg hd]
  · constructor
    · intro hbase
      by_cases hret : (env.GetModuleFileName MAX_PATH).ret = 0
      · exact Or.inl hret
      · by_cases hsep : separator ∈ (c_str (env.GetModuleFileName MAX_PATH).buffer).data
        · obtain ⟨d, t, hpath, ht, hres⟩ :=
            GetExecutableDirectory_separator env.GetModuleFileName hret hsep
          rw [base_directory_of_resolved env d [] hres] at hbase
          refine Or.inr (Or.inr ⟨t, ht, ?_⟩)
          by_cases hd : d = ""
          · left
            rw [hpath, hd]
          · right
            rw [if_neg hd] at hbase
            rw [hpath, hbase]
        · exact Or.inr (Or.inl hsep)
    · rintro (hret | hsep | ⟨t, ht, hpath | hpath⟩)
      · rw [base_directory_of_resolved env "" _
          (GetExecutableDirectory_failed env.GetModuleFileName hret)]
        rfl
      · by_cases hret : (env.GetModuleFileName MAX_PATH).ret = 0
        · rw [base_directory_of_resolved env "" _
            (GetExecutableDirectory_failed env.GetModuleFileName hret)]
          rfl
        · rw [base_directory_of_resolved env "" _
            (GetExecutableDirectory_no_separator env.GetModuleFileName hret hsep)]
          rfl
      · by_cases hret : (env.GetModuleFileName MAX_PATH).ret = 0
        · rw [base_directory_of_resolved env "" _
            (GetExecutableDirectory_failed env.GetModuleFileName hret)]
          rfl
        · rw [base_directory_of_resolved env "" []
            (GetExecutableDirectory_split env.GetModuleFileName "" t hret hpath ht)]
          rfl
      · by_cases hret : (env.GetModuleFileName MAX_PATH).ret = 0
        · rw [base_directory_of_resolved env "" _
            (GetExecutableDirectory_failed env.GetModuleFileName hret)]
          rfl
        · rw [base_directory_of_resolved env "." []
            (GetExecutableDirectory_split env.GetModuleFileName "." t hret hpath ht)]
          rfl

theorem C8_base_directory_amended_witness :
    (installedEnv.GetModuleFileName MAX_PATH).ret ≠ 0 ∧
    c_str (installedEnv.GetModuleFileName MAX_PATH).buffer =
      "C:\\Apps\\DartBoy" ++ "\\" ++ "dartboy.exe" ∧
    separator ∉ ("dartboy.exe" : String).data ∧
    base_directory installedEnv = "C:\\Apps\\DartBoy" ∧
    base_directory rootedEnv = "." :=
  ⟨by decide, by decide, by decide,
   (C8_base_directory_amended installedEnv).1 "C:\\Apps\\DartBoy" "dartboy.exe"
     (by decide) (by decide) (by decide) (by decide),
   (C8_base_directory_amended rootedEnv).2.mpr
     (Or.inr (Or.inr ⟨"app.exe", by decide, Or.inl (by decide)⟩))⟩

end DartBoy
